import Mathlib

/-!
Shallow embedding of `src/scripts/create_turntable.py` (class `CreateTurntable`).

The tool keeps three numeric settings (camera distance, camera height,
angle interval), two recorded-object references, and drives a host scene
through a handful of calls: create sphere / camera / group, reparent,
set attributes, set playback range, cut keys, set keyframes, set tangents.

Numbers are modelled as exact rationals (`ℚ`); scene objects carry an
identifier, a kind, a translation triple, an optional parent and the list
of keyframes on their `rotateY` channel.  Each Python method becomes a
Lean function on this state.
-/

namespace CreateTurntable

/-- Tangent type on a keyframe: Maya's default (`auto`) or `linear` as
forced by `keyTangent`. -/
inductive Tangent where
  | auto
  | linear
deriving DecidableEq, Repr

/-- A single keyframe on an animation channel. -/
structure Keyframe where
  time : ℚ
  value : ℚ
  tangent : Tangent
deriving DecidableEq, Repr

/-- Model of `cmds.cutKey(obj, time=(t0, t1), attribute="rotateY")`: remove every
key whose time lies in the inclusive range `[t0, t1]`. -/
def cutKey (t0 t1 : ℚ) (ks : List Keyframe) : List Keyframe :=
  ks.filter fun k => !(decide (t0 ≤ k.time) && decide (k.time ≤ t1))

/-- Model of `cmds.setKeyframe(obj, time=t, attribute="rotateY", value=v)`: replace
any key at time `t` with a fresh key of value `v` and default tangents. -/
def setKeyframe (t v : ℚ) (ks : List Keyframe) : List Keyframe :=
  (ks.filter fun k => !(decide (k.time = t))) ++ [⟨t, v, Tangent.auto⟩]

/-- Model of `cmds.selectKey(obj, time=(t0, t1), ...)` followed by
`cmds.keyTangent(inTangentType="linear", outTangentType="linear")`: force
linear tangents on every key in the inclusive range `[t0, t1]`. -/
def linearizeKeys (t0 t1 : ℚ) (ks : List Keyframe) : List Keyframe :=
  ks.map fun k =>
    if t0 ≤ k.time ∧ k.time ≤ t1 then { k with tangent := Tangent.linear } else k

/-- Keys of a channel lying in the inclusive range `[t0, t1]`. -/
def keysInRange (t0 t1 : ℚ) (ks : List Keyframe) : List Keyframe :=
  ks.filter fun k => decide (t0 ≤ k.time) && decide (k.time ≤ t1)

/-- Kind of a scene object created by the tool. -/
inductive ObjKind where
  | sphere
  | camera
  | group
deriving DecidableEq, Repr

/-- A host scene object: identifier, kind, `translate` attribute triple
(X, Y, Z), optional parent and the `rotateY` animation channel. -/
structure Obj where
  id : ℕ
  kind : ObjKind
  translate : ℚ × ℚ × ℚ
  parent : Option ℕ
  rotateYKeys : List Keyframe
deriving DecidableEq, Repr

/-- The host scene: its objects, the playback range (`minTime`,
`maxTime`), the animation end time (`animationEndTime`) and a counter
supplying fresh object identifiers. -/
structure Scene where
  objs : List Obj
  playbackMin : ℚ
  playbackMax : ℚ
  animEnd : ℚ
  nextId : ℕ
deriving DecidableEq, Repr

/-- Model of `cmds.objExists(name)`. -/
def objExists (i : ℕ) (s : Scene) : Bool :=
  s.objs.any fun o => o.id == i

/-- Look an object up by identifier. -/
def getObj (i : ℕ) (s : Scene) : Option Obj :=
  s.objs.find? fun o => o.id == i

/-- Update the object with identifier `i` in place. -/
def mapObj (i : ℕ) (f : Obj → Obj) (s : Scene) : Scene :=
  { s with objs := s.objs.map fun o => if o.id == i then f o else o }

/-- The end-time formula of `set_rotation` (line 359):
`end_time = ((360 - angle_interval) / angle_interval) + (start_time - 1)`. -/
def endTimeOf (delta T0 : ℚ) : ℚ :=
  (360 - delta) / delta + (T0 - 1)

/-- Python division raises `ZeroDivisionError` on a zero divisor; the
result is a value only when the divisor is nonzero. -/
def pyDiv (a b : ℚ) : Option ℚ :=
  if b = 0 then none else some (a / b)

/-- The end-time computation of `set_rotation` under Python division
semantics: `None` exactly when the division by `angle_interval` fails. -/
def endTimeOpt (delta T0 : ℚ) : Option ℚ :=
  (pyDiv (360 - delta) delta).map fun q => q + (T0 - 1)

/-- Model of `CreateTurntable.set_rotation(rotator)` (lines 349-371), as a scene
transformer parametrised by the current `angle_interval` setting:
reads `start_time` from the playback minimum, computes `end_time`, sets
the playback maximum to `end_time`, extends `animationEndTime` when it is
smaller, then cuts the keys in `[start_time, end_time]` on the rotator's
`rotateY` channel, keys `0` at `start_time` and `end_time * angle_interval`
at `end_time`, and forces linear tangents on the keys in that range. -/
def set_rotation (delta : ℚ) (rotator : ℕ) (s : Scene) : Scene :=
  let T0 := s.playbackMin
  let T1 := endTimeOf delta T0
  let s1 : Scene := { s with playbackMax := T1 }
  let s2 : Scene := if s1.animEnd < T1 then { s1 with animEnd := T1 } else s1
  mapObj rotator
    (fun o =>
      { o with
        rotateYKeys := linearizeKeys T0 T1 (setKeyframe T1 (T1 * delta)
          (setKeyframe T0 0 (cutKey T0 T1 o.rotateYKeys))) })
    s2

/-- The tool's own state: the three settings and the recorded references
to the most recently created sphere, camera and group, plus whether the
Apply button is enabled. -/
structure Tool where
  cameraDistance : ℚ
  cameraHeight : ℚ
  angleInterval : ℚ
  turntableField : Option ℕ
  cameraField : Option ℕ
  groupField : Option ℕ
  applyEnabled : Bool
deriving DecidableEq, Repr

/-- Model of `CreateTurntable.create_button_on_clicked` (lines 291-329): create a
sphere at the origin, a camera at `(0, camera_height, camera_distance)`,
an empty group; parent the camera under the group and the group under the
sphere (relative parenting keeps local translations); run `set_rotation`
on the group; enable Apply and record the three references. -/
def create_button_on_clicked (t : Tool) (s : Scene) : Tool × Scene :=
  let sphereId := s.nextId
  let camId := s.nextId + 1
  let grpId := s.nextId + 2
  let sphere : Obj := ⟨sphereId, ObjKind.sphere, (0, 0, 0), none, []⟩
  let cam : Obj := ⟨camId, ObjKind.camera, (0, t.cameraHeight, t.cameraDistance), none, []⟩
  let grp : Obj := ⟨grpId, ObjKind.group, (0, 0, 0), none, []⟩
  let s1 : Scene := { s with objs := s.objs ++ [sphere, cam, grp], nextId := s.nextId + 3 }
  let s2 := mapObj camId (fun o => { o with parent := some grpId }) s1
  let s3 := mapObj grpId (fun o => { o with parent := some sphereId }) s2
  let s4 := set_rotation t.angleInterval grpId s3
  ({ t with turntableField := some sphereId, cameraField := some camId,
            groupField := some grpId, applyEnabled := true }, s4)

/-- Model of `cmds.setAttr("%s.translateY" % name, v)`. -/
def setTranslateY (i : ℕ) (v : ℚ) (s : Scene) : Scene :=
  mapObj i (fun o => { o with translate := (o.translate.1, v, o.translate.2.2) }) s

/-- Model of `cmds.setAttr("%s.translateZ" % name, v)`. -/
def setTranslateZ (i : ℕ) (v : ℚ) (s : Scene) : Scene :=
  mapObj i (fun o => { o with translate := (o.translate.1, o.translate.2.1, v) }) s

/-- Model of `CreateTurntable.apply_button_on_clicked` (lines 331-347): when both
the recorded camera and group still exist, set the camera's `translateY`
and `translateZ` from the settings and regenerate the rotation animation;
otherwise fall back to `create_button_on_clicked`. -/
def apply_button_on_clicked (t : Tool) (s : Scene) : Tool × Scene :=
  match t.cameraField, t.groupField with
  | some camId, some grpId =>
      if objExists camId s && objExists grpId s then
        let s1 := setTranslateY camId t.cameraHeight s
        let s2 := setTranslateZ camId t.cameraDistance s1
        (t, set_rotation t.angleInterval grpId s2)
      else
        create_button_on_clicked t s
  | _, _ => create_button_on_clicked t s

/-! ### The settings panel: slider auto-range and spin-box/slider sync -/

/-- A slider's range: `minimum()` and `maximum()`. -/
structure SliderRange where
  lo : ℚ
  hi : ℚ
deriving DecidableEq, Repr

/-- First half of `on_value_changed` (lines 265-272): when the spin-box
value reaches `0.98 × slider.maximum()`, raise the maximum to
`value × 1.07`, clamped to the spin box's own maximum. -/
def autoRangeMax (v sbMax : ℚ) (sl : SliderRange) : SliderRange :=
  if sl.hi * (98 / 100) ≤ v then
    ⟨sl.lo, if sbMax ≤ v * (107 / 100) then sbMax else v * (107 / 100)⟩
  else sl

/-- Second half of `on_value_changed` (lines 276-283): when the spin box
admits negative values and the value reaches `0.98 × slider.minimum()`,
lower the minimum to `value × 1.07`, clamped to the spin box's minimum. -/
def autoRangeMin (v sbMin : ℚ) (sl : SliderRange) : SliderRange :=
  if sbMin < 0 ∧ v ≤ sl.lo * (98 / 100) then
    ⟨if v * (107 / 100) ≤ sbMin then sbMin else v * (107 / 100), sl.hi⟩
  else sl

/-- Model of `CreateTurntable.on_value_changed` (lines 243-283): the maximum
branch runs first, then the minimum branch on the updated range. -/
def on_value_changed (v sbMin sbMax : ℚ) (sl : SliderRange) : SliderRange :=
  autoRangeMin v sbMin (autoRangeMax v sbMax sl)

/-- A Qt value widget: its range and current value.  `setValue` clamps
into the range and emits `valueChanged` only when the value changes. -/
structure Widget where
  lo : ℚ
  hi : ℚ
  val : ℚ
deriving DecidableEq, Repr

/-- Qt's clamping of a requested value into a widget's range. -/
def clampVal (v lo hi : ℚ) : ℚ :=
  max lo (min v hi)

/-- A linked spin-box/slider pair as wired in `initialize_UI`
(lines 215-230): the spin box's `valueChanged` runs `on_value_changed`
and then `slider.setValue`; the slider's `valueChanged` runs
`spin_box.setValue`. -/
structure Pair where
  spin : Widget
  slider : Widget
deriving DecidableEq, Repr

/-- Effect of `spin_box.setValue(v)` and the ensuing signal cascade: the value is
clamped into the spin box's range; on change, `on_value_changed` expands
the slider's range and `slider.setValue` propagates the value; a final
echo `spin_box.setValue(slider.value())` covers the case where the slider
clamped (when it does not, the echo changes nothing and the chain
stops). -/
def setSpinValue (v : ℚ) (p : Pair) : Pair :=
  let v1 := clampVal v p.spin.lo p.spin.hi
  if v1 = p.spin.val then p
  else
    let r := on_value_changed v1 p.spin.lo p.spin.hi ⟨p.slider.lo, p.slider.hi⟩
    let sv := clampVal v1 r.lo r.hi
    let p2 : Pair := ⟨{ p.spin with val := v1 }, ⟨r.lo, r.hi, sv⟩⟩
    if sv = p.slider.val then p2
    else { p2 with spin := { p2.spin with val := clampVal sv p2.spin.lo p2.spin.hi } }

/-- Effect of `slider.setValue(v)` and the ensuing signal cascade: the value is
clamped into the slider's range; on change, `spin_box.setValue`
propagates it, whose own `valueChanged` runs `on_value_changed` and
`slider.setValue` back (the echo changes nothing when the values
already agree). -/
def setSliderValue (v : ℚ) (p : Pair) : Pair :=
  let v1 := clampVal v p.slider.lo p.slider.hi
  if v1 = p.slider.val then p
  else
    let p1 : Pair := { p with slider := { p.slider with val := v1 } }
    let v2 := clampVal v1 p1.spin.lo p1.spin.hi
    if v2 = p1.spin.val then p1
    else
      let r := on_value_changed v2 p1.spin.lo p1.spin.hi ⟨p1.slider.lo, p1.slider.hi⟩
      let sv := clampVal v2 r.lo r.hi
      ⟨{ p1.spin with val := v2 }, ⟨r.lo, r.hi, sv⟩⟩

/-- The angle-interval double spin box's range (lines 161-162):
minimum `-90`, maximum `90`. -/
def angleSpinMin : ℚ := -90

/-- The angle-interval double spin box's maximum. -/
def angleSpinMax : ℚ := 90

/-- A value the angle-interval spin box admits. -/
def angleAdmits (x : ℚ) : Prop :=
  angleSpinMin ≤ x ∧ x ≤ angleSpinMax

/-- Well-formed scene: every object identifier is below the fresh-id
counter, so newly created objects never collide with existing ones. -/
def SceneWF (s : Scene) : Prop :=
  ∀ o ∈ s.objs, o.id < s.nextId

/-! ### Helper lemmas about channels and scene lookup -/

lemma mem_cutKey {t0 t1 : ℚ} {ks : List Keyframe} {k : Keyframe}
    (hk : k ∈ cutKey t0 t1 ks) : ¬ (t0 ≤ k.time ∧ k.time ≤ t1) := by
  have h := (List.mem_filter.mp hk).2
  simp only [Bool.not_eq_true', Bool.and_eq_false_iff, decide_eq_false_iff_not, not_le] at h
  rcases h with h | h
  · exact fun hc => absurd hc.1 (not_le.mpr h)
  · exact fun hc => absurd hc.2 (not_le.mpr h)

lemma setKeyframe_append {t v : ℚ} {ks : List Keyframe}
    (h : ∀ k ∈ ks, k.time ≠ t) :
    setKeyframe t v ks = ks ++ [⟨t, v, Tangent.auto⟩] := by
  unfold setKeyframe
  congr 1
  induction ks with
  | nil => rfl
  | cons a l ih =>
      have ha : a.time ≠ t := h a (List.mem_cons_self a l)
      simp only [List.filter_cons]
      rw [if_pos (by simpa using ha)]
      rw [ih (fun k hk => h k (List.mem_cons_of_mem a hk))]

lemma linearizeKeys_append (t0 t1 : ℚ) (xs ys : List Keyframe) :
    linearizeKeys t0 t1 (xs ++ ys) = linearizeKeys t0 t1 xs ++ linearizeKeys t0 t1 ys := by
  unfold linearizeKeys
  exact List.map_append _ xs ys

lemma linearizeKeys_of_out {t0 t1 : ℚ} {ks : List Keyframe}
    (h : ∀ k ∈ ks, ¬ (t0 ≤ k.time ∧ k.time ≤ t1)) :
    linearizeKeys t0 t1 ks = ks := by
  unfold linearizeKeys
  induction ks with
  | nil => rfl
  | cons a l ih =>
      simp only [List.map_cons]
      rw [if_neg (h a (List.mem_cons_self a l)),
        ih (fun k hk => h k (List.mem_cons_of_mem a hk))]

/-- Structure of the rotateY channel produced by the key-setting block of
`set_rotation`: old keys in `[t0, t1]` removed, two fresh linear keys. -/
lemma rotation_keys_structure {t0 t1 : ℚ} (hlt : t0 < t1) (v0 v1 : ℚ)
    (ks : List Keyframe) :
    linearizeKeys t0 t1 (setKeyframe t1 v1 (setKeyframe t0 v0 (cutKey t0 t1 ks)))
      = cutKey t0 t1 ks ++ [⟨t0, v0, Tangent.linear⟩, ⟨t1, v1, Tangent.linear⟩] := by
  have hle : t0 ≤ t1 := le_of_lt hlt
  have h0 : ∀ k ∈ cutKey t0 t1 ks, k.time ≠ t0 := by
    intro k hk heq
    exact mem_cutKey hk ⟨le_of_eq heq.symm, heq ▸ hle⟩
  rw [setKeyframe_append h0]
  have h1 : ∀ k ∈ cutKey t0 t1 ks ++ [(⟨t0, v0, Tangent.auto⟩ : Keyframe)], k.time ≠ t1 := by
    intro k hk
    rcases List.mem_append.mp hk with h | h
    · intro heq
      exact mem_cutKey h ⟨heq ▸ hle, le_of_eq heq⟩
    · rcases List.mem_singleton.mp h with rfl
      exact ne_of_lt hlt
  rw [setKeyframe_append h1, List.append_assoc, linearizeKeys_append]
  rw [linearizeKeys_of_out (fun k hk => mem_cutKey hk)]
  unfold linearizeKeys
  simp [hle, hlt.le, le_refl]

lemma find?_map_id_pres {g : Obj → Obj} (hg : ∀ o, (g o).id = o.id)
    (i : ℕ) (l : List Obj) :
    (l.map g).find? (fun o => o.id == i) = (l.find? (fun o => o.id == i)).map g := by
  induction l with
  | nil => rfl
  | cons a t ih =>
      simp only [List.map_cons, List.find?]
      rw [hg a]
      cases h : (a.id == i) with
      | false => simpa [h] using ih
      | true => simp [h]

lemma getObj_mapObj (i j : ℕ) {f : Obj → Obj} (hf : ∀ o, (f o).id = o.id)
    (s : Scene) :
    getObj i (mapObj j f s)
      = (getObj i s).map (fun o => if o.id == j then f o else o) := by
  unfold getObj mapObj
  apply find?_map_id_pres
  intro o
  by_cases h : o.id == j <;> simp [h, hf]

lemma getObj_id {i : ℕ} {s : Scene} {o : Obj} (h : getObj i s = some o) :
    o.id = i := by
  have := List.find?_some h
  simpa using this

lemma getObj_mapObj_self (i : ℕ) {f : Obj → Obj} (hf : ∀ o, (f o).id = o.id)
    (s : Scene) :
    getObj i (mapObj i f s) = (getObj i s).map f := by
  rw [getObj_mapObj i i hf]
  cases h : getObj i s with
  | none => rfl
  | some o => simp [getObj_id h]

lemma getObj_mapObj_ne {i j : ℕ} (hij : i ≠ j) {f : Obj → Obj}
    (hf : ∀ o, (f o).id = o.id) (s : Scene) :
    getObj i (mapObj j f s) = getObj i s := by
  rw [getObj_mapObj i j hf]
  cases h : getObj i s with
  | none => rfl
  | some o => simp [getObj_id h, hij]

lemma objExists_iff_getObj (i : ℕ) (s : Scene) :
    objExists i s = true ↔ (getObj i s).isSome := by
  unfold objExists getObj
  induction s.objs with
  | nil => simp
  | cons a t ih =>
      simp only [List.any_cons, List.find?]
      cases h : (a.id == i) with
      | false => simp only [h, Bool.false_or]; exact ih
      | true => simp [h]

lemma mapObj_playbackMin (i : ℕ) (f : Obj → Obj) (s : Scene) :
    (mapObj i f s).playbackMin = s.playbackMin := rfl

lemma mapObj_playbackMax (i : ℕ) (f : Obj → Obj) (s : Scene) :
    (mapObj i f s).playbackMax = s.playbackMax := rfl

lemma mapObj_animEnd (i : ℕ) (f : Obj → Obj) (s : Scene) :
    (mapObj i f s).animEnd = s.animEnd := rfl

lemma mapObj_nextId (i : ℕ) (f : Obj → Obj) (s : Scene) :
    (mapObj i f s).nextId = s.nextId := rfl

lemma set_rotation_playbackMax (delta : ℚ) (r : ℕ) (s : Scene) :
    (set_rotation delta r s).playbackMax = endTimeOf delta s.playbackMin := by
  unfold set_rotation
  dsimp only
  split <;> rfl

lemma set_rotation_playbackMin (delta : ℚ) (r : ℕ) (s : Scene) :
    (set_rotation delta r s).playbackMin = s.playbackMin := by
  unfold set_rotation
  dsimp only
  split <;> rfl

lemma set_rotation_animEnd (delta : ℚ) (r : ℕ) (s : Scene) :
    (set_rotation delta r s).animEnd
      = max s.animEnd (endTimeOf delta s.playbackMin) := by
  unfold set_rotation
  dsimp only
  split
  case isTrue h => exact (max_eq_right (le_of_lt h)).symm
  case isFalse h => exact (max_eq_left (le_of_not_lt h)).symm

lemma set_rotation_nextId (delta : ℚ) (r : ℕ) (s : Scene) :
    (set_rotation delta r s).nextId = s.nextId := by
  unfold set_rotation
  dsimp only
  split <;> rfl

lemma lt_endTimeOf {delta : ℚ} (h0 : 0 < delta) (h90 : delta ≤ 90) (T0 : ℚ) :
    T0 < endTimeOf delta T0 := by
  unfold endTimeOf
  have h1 : 1 < (360 - delta) / delta := by
    rw [lt_div_iff₀ h0]
    linarith
  linarith

lemma getObj_mapObj_keys (i : ℕ) (F : Obj → List Keyframe) (s : Scene) :
    getObj i (mapObj i (fun o => { o with rotateYKeys := F o }) s)
      = (getObj i s).map (fun o => { o with rotateYKeys := F o }) := by
  apply getObj_mapObj_self
  intro o
  rfl

lemma getObj_mapObj_keys_ne {i g : ℕ} (hig : i ≠ g) (F : Obj → List Keyframe)
    (s : Scene) :
    getObj i (mapObj g (fun o => { o with rotateYKeys := F o }) s) = getObj i s := by
  apply getObj_mapObj_ne hig
  intro o
  rfl

lemma getObj_mapObj_translate (i : ℕ) (F : Obj → ℚ × ℚ × ℚ) (s : Scene) :
    getObj i (mapObj i (fun o => { o with translate := F o }) s)
      = (getObj i s).map (fun o => { o with translate := F o }) := by
  apply getObj_mapObj_self
  intro o
  rfl

lemma getObj_mapObj_translate_ne {i g : ℕ} (hig : i ≠ g) (F : Obj → ℚ × ℚ × ℚ)
    (s : Scene) :
    getObj i (mapObj g (fun o => { o with translate := F o }) s) = getObj i s := by
  apply getObj_mapObj_ne hig
  intro o
  rfl

lemma getObj_mapObj_parent (i : ℕ) (P : Obj → Option ℕ) (s : Scene) :
    getObj i (mapObj i (fun o => { o with parent := P o }) s)
      = (getObj i s).map (fun o => { o with parent := P o }) := by
  apply getObj_mapObj_self
  intro o
  rfl

lemma getObj_mapObj_parent_ne {i g : ℕ} (hig : i ≠ g) (P : Obj → Option ℕ)
    (s : Scene) :
    getObj i (mapObj g (fun o => { o with parent := P o }) s) = getObj i s := by
  apply getObj_mapObj_ne hig
  intro o
  rfl

lemma set_rotation_getObj (delta : ℚ) (g : ℕ) (s : Scene) :
    getObj g (set_rotation delta g s)
      = (getObj g s).map (fun o =>
          { o with
            rotateYKeys :=
              linearizeKeys s.playbackMin (endTimeOf delta s.playbackMin)
                (setKeyframe (endTimeOf delta s.playbackMin)
                  (endTimeOf delta s.playbackMin * delta)
                  (setKeyframe s.playbackMin 0
                    (cutKey s.playbackMin (endTimeOf delta s.playbackMin)
                      o.rotateYKeys))) }) := by
  unfold set_rotation
  dsimp only
  split <;>
    · rw [getObj_mapObj_keys]
      rfl

lemma set_rotation_getObj_ne {i g : ℕ} (hig : i ≠ g) (delta : ℚ) (s : Scene) :
    getObj i (set_rotation delta g s) = getObj i s := by
  unfold set_rotation
  dsimp only
  split <;>
    · rw [getObj_mapObj_keys_ne hig]
      rfl

lemma keysInRange_append (t0 t1 : ℚ) (xs ys : List Keyframe) :
    keysInRange t0 t1 (xs ++ ys) = keysInRange t0 t1 xs ++ keysInRange t0 t1 ys := by
  unfold keysInRange
  rw [List.filter_append]

lemma keysInRange_cutKey (t0 t1 : ℚ) (ks : List Keyframe) :
    keysInRange t0 t1 (cutKey t0 t1 ks) = [] := by
  rw [List.eq_nil_iff_forall_not_mem]
  intro k hk
  have h1 := mem_cutKey (List.mem_filter.mp hk).1
  have h2 := (List.mem_filter.mp hk).2
  simp only [Bool.and_eq_true, decide_eq_true_eq] at h2
  exact h1 h2

lemma clampVal_eq_self {v lo hi : ℚ} (h1 : lo ≤ v) (h2 : v ≤ hi) :
    clampVal v lo hi = v := by
  unfold clampVal
  rw [min_eq_left h2, max_eq_right h1]

lemma clampVal_mem (v : ℚ) {lo hi : ℚ} (h : lo ≤ hi) :
    lo ≤ clampVal v lo hi ∧ clampVal v lo hi ≤ hi := by
  unfold clampVal
  exact ⟨le_max_left _ _, max_le h (min_le_right _ _)⟩

lemma autoRangeMax_lo (v sbMax : ℚ) (sl : SliderRange) :
    (autoRangeMax v sbMax sl).lo = sl.lo := by
  unfold autoRangeMax
  split <;> rfl

lemma autoRangeMin_hi (v sbMin : ℚ) (sl : SliderRange) :
    (autoRangeMin v sbMin sl).hi = sl.hi := by
  unfold autoRangeMin
  split <;> rfl

lemma autoRangeMin_lo_le {v sbMin : ℚ} {sl : SliderRange}
    (hv : sbMin ≤ v) (hlo : sl.lo ≤ 0) :
    (autoRangeMin v sbMin sl).lo ≤ v := by
  unfold autoRangeMin
  split
  case isTrue h =>
    dsimp only
    split
    case isTrue h2 => exact hv
    case isFalse h2 =>
      have hv0 : v ≤ 0 := le_trans h.2 (by linarith)
      linarith
  case isFalse h =>
    by_cases hm : sbMin < 0
    · have h2 : sl.lo * (98 / 100) < v := by
        by_contra hcon
        exact h ⟨hm, le_of_not_lt hcon⟩
      linarith
    · linarith [le_of_not_lt hm]

lemma autoRangeMax_le_hi {v sbMax : ℚ} {sl : SliderRange}
    (hv : v ≤ sbMax) (hhi : 0 ≤ sl.hi) :
    v ≤ (autoRangeMax v sbMax sl).hi := by
  unfold autoRangeMax
  split
  case isTrue h =>
    dsimp only
    have hv0 : 0 ≤ v := le_trans (by linarith) h
    split
    case isTrue h2 => exact hv
    case isFalse h2 => linarith
  case isFalse h =>
    have := not_le.mp h
    linarith

lemma on_value_changed_bounds {v sbMin sbMax : ℚ} {sl : SliderRange}
    (hvlo : sbMin ≤ v) (hvhi : v ≤ sbMax) (hlo : sl.lo ≤ 0) (hhi : 0 ≤ sl.hi) :
    (on_value_changed v sbMin sbMax sl).lo ≤ v
      ∧ v ≤ (on_value_changed v sbMin sbMax sl).hi := by
  unfold on_value_changed
  constructor
  · exact autoRangeMin_lo_le hvlo (by rw [autoRangeMax_lo]; exact hlo)
  · rw [autoRangeMin_hi]
    exact autoRangeMax_le_hi hvhi hhi

lemma find?_append_of_none {l1 : List Obj} {i : ℕ}
    (h : ∀ o ∈ l1, o.id ≠ i) (l2 : List Obj) :
    (l1 ++ l2).find? (fun o => o.id == i) = l2.find? (fun o => o.id == i) := by
  induction l1 with
  | nil => rfl
  | cons a tl ih =>
      rw [List.cons_append,
        List.find?_cons_of_neg _ (by simp [h a (List.mem_cons_self a tl)])]
      exact ih (fun o ho => h o (List.mem_cons_of_mem a ho))

/-- The scene produced by the Create button, written out: the three fresh
objects appended, the two reparentings and the rotation pass. -/
lemma create_scene_eq (t : Tool) (s : Scene) :
    (create_button_on_clicked t s).2
      = set_rotation t.angleInterval (s.nextId + 2)
          (mapObj (s.nextId + 2) (fun o => { o with parent := some s.nextId })
            (mapObj (s.nextId + 1) (fun o => { o with parent := some (s.nextId + 2) })
              { s with
                objs := s.objs ++
                  [⟨s.nextId, ObjKind.sphere, (0, 0, 0), none, []⟩,
                   ⟨s.nextId + 1, ObjKind.camera,
                    (0, t.cameraHeight, t.cameraDistance), none, []⟩,
                   ⟨s.nextId + 2, ObjKind.group, (0, 0, 0), none, []⟩],
                nextId := s.nextId + 3 })) := rfl

lemma create_state (t : Tool) (s : Scene) (hWF : SceneWF s)
    (hlt : s.playbackMin < endTimeOf t.angleInterval s.playbackMin) :
    getObj s.nextId (create_button_on_clicked t s).2
        = some ⟨s.nextId, ObjKind.sphere, (0, 0, 0), none, []⟩ ∧
      getObj (s.nextId + 1) (create_button_on_clicked t s).2
        = some ⟨s.nextId + 1, ObjKind.camera,
            (0, t.cameraHeight, t.cameraDistance), some (s.nextId + 2), []⟩ ∧
      getObj (s.nextId + 2) (create_button_on_clicked t s).2
        = some ⟨s.nextId + 2, ObjKind.group, (0, 0, 0), some s.nextId,
            [⟨s.playbackMin, 0, Tangent.linear⟩,
             ⟨endTimeOf t.angleInterval s.playbackMin,
              endTimeOf t.angleInterval s.playbackMin * t.angleInterval,
              Tangent.linear⟩]⟩ := by
  have hbase_sph : getObj s.nextId
      ({ s with
        objs := s.objs ++
          [⟨s.nextId, ObjKind.sphere, (0, 0, 0), none, []⟩,
           ⟨s.nextId + 1, ObjKind.camera,
            (0, t.cameraHeight, t.cameraDistance), none, []⟩,
           ⟨s.nextId + 2, ObjKind.group, (0, 0, 0), none, []⟩],
        nextId := s.nextId + 3 } : Scene)
      = some ⟨s.nextId, ObjKind.sphere, (0, 0, 0), none, []⟩ := by
    unfold getObj
    dsimp only
    rw [find?_append_of_none (fun o ho heq => by have := hWF o ho; omega)]
    exact List.find?_cons_of_pos _ (by simp)
  have hbase_cam : getObj (s.nextId + 1)
      ({ s with
        objs := s.objs ++
          [⟨s.nextId, ObjKind.sphere, (0, 0, 0), none, []⟩,
           ⟨s.nextId + 1, ObjKind.camera,
            (0, t.cameraHeight, t.cameraDistance), none, []⟩,
           ⟨s.nextId + 2, ObjKind.group, (0, 0, 0), none, []⟩],
        nextId := s.nextId + 3 } : Scene)
      = some ⟨s.nextId + 1, ObjKind.camera,
          (0, t.cameraHeight, t.cameraDistance), none, []⟩ := by
    unfold getObj
    dsimp only
    rw [find?_append_of_none (fun o ho heq => by have := hWF o ho; omega)]
    rw [List.find?_cons_of_neg _ (by simp)]
    exact List.find?_cons_of_pos _ (by simp)
  have hbase_grp : getObj (s.nextId + 2)
      ({ s with
        objs := s.objs ++
          [⟨s.nextId, ObjKind.sphere, (0, 0, 0), none, []⟩,
           ⟨s.nextId + 1, ObjKind.camera,
            (0, t.cameraHeight, t.cameraDistance), none, []⟩,
           ⟨s.nextId + 2, ObjKind.group, (0, 0, 0), none, []⟩],
        nextId := s.nextId + 3 } : Scene)
      = some ⟨s.nextId + 2, ObjKind.group, (0, 0, 0), none, []⟩ := by
    unfold getObj
    dsimp only
    rw [find?_append_of_none (fun o ho heq => by have := hWF o ho; omega)]
    rw [List.find?_cons_of_neg _ (by simp), List.find?_cons_of_neg _ (by simp)]
    exact List.find?_cons_of_pos _ (by simp)
  refine ⟨?_, ?_, ?_⟩
  · rw [create_scene_eq, set_rotation_getObj_ne (by omega),
      getObj_mapObj_parent_ne (by omega), getObj_mapObj_parent_ne (by omega),
      hbase_sph]
  · rw [create_scene_eq, set_rotation_getObj_ne (by omega),
      getObj_mapObj_parent_ne (by omega), getObj_mapObj_parent,
      hbase_cam]
    rfl
  · rw [create_scene_eq, set_rotation_getObj, getObj_mapObj_parent,
      getObj_mapObj_parent_ne (by omega), hbase_grp]
    simp only [Option.map_some']
    have hmin : (mapObj (s.nextId + 2) (fun o => { o with parent := some s.nextId })
        (mapObj (s.nextId + 1) (fun o => { o with parent := some (s.nextId + 2) })
          { s with
            objs := s.objs ++
              [⟨s.nextId, ObjKind.sphere, (0, 0, 0), none, []⟩,
               ⟨s.nextId + 1, ObjKind.camera,
                (0, t.cameraHeight, t.cameraDistance), none, []⟩,
               ⟨s.nextId + 2, ObjKind.group, (0, 0, 0), none, []⟩],
            nextId := s.nextId + 3 })).playbackMin = s.playbackMin := rfl
    rw [hmin, rotation_keys_structure hlt]
    rfl

/-! ### Claim theorems -/

/-- C1: for every playback start time (the scene's playback minimum) and
every `angle_interval` in `(0, 90]`, the end time `set_rotation` writes to
the playback maximum equals `T0 - 1 + (360 - delta) / delta`, and it is
strictly greater than the start time. -/
theorem set_rotation_end_time_formula (s : Scene) (rotator : ℕ) (delta : ℚ)
    (h0 : 0 < delta) (h90 : delta ≤ 90) :
    (set_rotation delta rotator s).playbackMax
        = s.playbackMin - 1 + (360 - delta) / delta ∧
      s.playbackMin < (set_rotation delta rotator s).playbackMax := by
  rw [set_rotation_playbackMax]
  constructor
  · unfold endTimeOf
    ring
  · exact lt_endTimeOf h0 h90 s.playbackMin

/-- C1 witness: the formula and the strict growth at the concrete input
`start_time = 1`, `angle_interval = 0.75`. -/
theorem set_rotation_end_time_formula_witness :
    (0:ℚ) < 3/4 ∧ (3/4:ℚ) ≤ 90 ∧
      ((set_rotation (3/4) 0 ⟨[], 1, 24, 48, 0⟩).playbackMax
          = 1 - 1 + (360 - 3/4) / (3/4) ∧
        (1:ℚ) < (set_rotation (3/4) 0 ⟨[], 1, 24, 48, 0⟩).playbackMax) :=
  ⟨by norm_num, by norm_num,
    set_rotation_end_time_formula ⟨[], 1, 24, 48, 0⟩ 0 (3/4)
      (by norm_num) (by norm_num)⟩

/-- C3 counterexample: with playback range `[1, 1000]` and
`angle_interval = 90`, `set_rotation` writes playback maximum `3`, which
is not `max 1000 3`: the playback range is shortened. -/
theorem playback_range_shortened :
    ¬ ((set_rotation 90 0 ⟨[⟨0, ObjKind.group, (0, 0, 0), none, []⟩], 1, 1000, 1000, 1⟩).playbackMax
        = max (⟨[⟨0, ObjKind.group, (0, 0, 0), none, []⟩], 1, 1000, 1000, 1⟩ : Scene).playbackMax
            (endTimeOf 90 (⟨[⟨0, ObjKind.group, (0, 0, 0), none, []⟩], 1, 1000, 1000, 1⟩ : Scene).playbackMin)) := by
  rw [set_rotation_playbackMax]
  intro h
  rw [max_eq_left (by norm_num [endTimeOf] : endTimeOf 90 (1:ℚ) ≤ 1000)] at h
  norm_num [endTimeOf] at h

/-- C3 amended: `set_rotation` sets the playback maximum to the computed
end time unconditionally (so a larger previous range is shortened); it is
the animation end time that is only ever extended, to the larger of its
previous value and the end time. -/
theorem set_rotation_playback_range (delta : ℚ) (rotator : ℕ) (s : Scene) :
    (set_rotation delta rotator s).playbackMax = endTimeOf delta s.playbackMin ∧
      (set_rotation delta rotator s).animEnd
        = max s.animEnd (endTimeOf delta s.playbackMin) :=
  ⟨set_rotation_playbackMax delta rotator s, set_rotation_animEnd delta rotator s⟩

/-- C8: the value-changed handler raises the slider maximum to
`min (v * 1.07) sbMax` exactly when `v` reaches `0.98` of the current
maximum, and leaves it unchanged otherwise. -/
theorem on_value_changed_max (v sbMin sbMax : ℚ) (sl : SliderRange) :
    (on_value_changed v sbMin sbMax sl).hi
      = if sl.hi * (98 / 100) ≤ v then min (v * (107 / 100)) sbMax else sl.hi := by
  unfold on_value_changed autoRangeMin autoRangeMax
  rcases le_or_lt (sl.hi * (98 / 100)) v with h1 | h1
  · rw [if_pos h1]
    rcases le_or_lt sbMax (v * (107 / 100)) with h2 | h2
    · rw [if_pos h2]
      split <;> simp [min_eq_right h2]
    · rw [if_neg (not_le.mpr h2)]
      split <;> simp [min_eq_left (le_of_lt h2)]
  · rw [if_neg (not_le.mpr h1)]
    split <;> simp [not_le.mpr h1]

/-- C10: the angle spin box admits `0`, and the end-time computation of
`set_rotation` divides by `angle_interval` with no guard: under Python
semantics it yields a value precisely when `angle_interval` is nonzero,
in which case it agrees with the total formula `endTimeOf`. -/
theorem end_time_division_guard :
    angleAdmits 0 ∧
      (∀ T0 delta : ℚ, (endTimeOpt delta T0).isSome ↔ delta ≠ 0) ∧
      (∀ T0 delta : ℚ, delta ≠ 0 → endTimeOpt delta T0 = some (endTimeOf delta T0)) := by
  refine ⟨⟨by norm_num [angleSpinMin], by norm_num [angleSpinMax]⟩, ?_, ?_⟩
  · intro T0 delta
    by_cases h : delta = 0 <;> simp [endTimeOpt, pyDiv, h]
  · intro T0 delta h
    simp [endTimeOpt, pyDiv, h, endTimeOf]

/-- C10 witness: at `angle_interval = 0.75` the end-time computation
yields a value, and `0` lies inside the spin-box range. -/
theorem end_time_division_guard_witness :
    angleAdmits 0 ∧ (endTimeOpt (3/4) 1).isSome :=
  ⟨end_time_division_guard.1,
    (end_time_division_guard.2.1 1 (3/4)).mpr (by norm_num)⟩

/-- C2 counterexample: with the default playback start `1` and
`angle_interval = 0.75`, `set_rotation` produces end time `479` (not
`480`) and an end keyframe of value `359.25` (not `360`): the animation
does not span exactly one full revolution. -/
theorem full_revolution_counterexample :
    (set_rotation (3/4) 0 ⟨[⟨0, ObjKind.group, (0, 0, 0), none, []⟩], 1, 24, 48, 1⟩).playbackMax
        = 479 ∧ (479 : ℚ) ≠ 480 ∧
      (getObj 0 (set_rotation (3/4) 0
          ⟨[⟨0, ObjKind.group, (0, 0, 0), none, []⟩], 1, 24, 48, 1⟩)).map Obj.rotateYKeys
        = some [⟨1, 0, Tangent.linear⟩, ⟨479, 1437/4, Tangent.linear⟩] ∧
      (1437/4 : ℚ) - 0 ≠ 360 := by
  refine ⟨?_, by norm_num, ?_, by norm_num⟩
  · rw [set_rotation_playbackMax]
    norm_num [endTimeOf]
  · norm_num [set_rotation, endTimeOf, mapObj, getObj, cutKey, setKeyframe,
      linearizeKeys, List.filter, List.find?]

/-- C2 amended: the rotation animation spans `(360 - delta) + (T0 - 1) * delta`
degrees from the start key (value `0`) to the end key, which is `360`
exactly only when `(T0 - 2) * delta = 0`; at `start_time = 1`,
`angle_interval = 0.75` the end time is `479` and the end key's value is
`359.25`. -/
theorem rotation_span (s : Scene) (g : ℕ) (o : Obj) (delta : ℚ)
    (h0 : 0 < delta) (h90 : delta ≤ 90) (hg : getObj g s = some o) :
    ∃ o', getObj g (set_rotation delta g s) = some o' ∧
      keysInRange s.playbackMin (endTimeOf delta s.playbackMin) o'.rotateYKeys
        = [⟨s.playbackMin, 0, Tangent.linear⟩,
           ⟨endTimeOf delta s.playbackMin,
            endTimeOf delta s.playbackMin * delta, Tangent.linear⟩] ∧
      endTimeOf delta s.playbackMin * delta - 0
        = (360 - delta) + (s.playbackMin - 1) * delta := by
  have hlt : s.playbackMin < endTimeOf delta s.playbackMin :=
    lt_endTimeOf h0 h90 s.playbackMin
  rw [set_rotation_getObj, hg]
  simp only [Option.map_some']
  refine ⟨_, rfl, ?_, ?_⟩
  · dsimp only
    rw [rotation_keys_structure hlt, keysInRange_append, keysInRange_cutKey]
    simp [keysInRange, hlt.le]
  · rw [sub_zero]
    unfold endTimeOf
    field_simp

/-- C2 amended witness: at `start_time = 1`, `angle_interval = 0.75` the
two keys in range are at times `1` and `479` with values `0` and
`359.25`, and the span identity holds. -/
theorem rotation_span_witness :
    ∃ o', getObj 0 (set_rotation (3/4) 0
          ⟨[⟨0, ObjKind.group, (0, 0, 0), none, [⟨5, 7, Tangent.auto⟩]⟩], 1, 24, 48, 1⟩)
        = some o' ∧
      keysInRange 1 (endTimeOf (3/4) 1) o'.rotateYKeys
        = [⟨1, 0, Tangent.linear⟩,
           ⟨endTimeOf (3/4) 1, endTimeOf (3/4) 1 * (3/4), Tangent.linear⟩] ∧
      endTimeOf (3/4) 1 * (3/4) - 0 = (360 - 3/4) + (1 - 1) * (3/4) :=
  rotation_span ⟨[⟨0, ObjKind.group, (0, 0, 0), none, [⟨5, 7, Tangent.auto⟩]⟩], 1, 24, 48, 1⟩
    0 ⟨0, ObjKind.group, (0, 0, 0), none, [⟨5, 7, Tangent.auto⟩]⟩ (3/4)
    (by norm_num) (by norm_num) rfl

/-- C4: `set_rotation` first clears the pre-existing keys of the rotateY
channel inside `[T0, T1]` and then appends exactly two keys, at `T0` with
value `0` and at `T1` with value `T1 * delta`, both with linear tangents. -/
theorem set_rotation_keys_exact (s : Scene) (g : ℕ) (o : Obj) (delta : ℚ)
    (h0 : 0 < delta) (h90 : delta ≤ 90) (hg : getObj g s = some o) :
    getObj g (set_rotation delta g s)
      = some { o with
          rotateYKeys := cutKey s.playbackMin (endTimeOf delta s.playbackMin) o.rotateYKeys
            ++ [⟨s.playbackMin, 0, Tangent.linear⟩,
                ⟨endTimeOf delta s.playbackMin,
                 endTimeOf delta s.playbackMin * delta, Tangent.linear⟩] } := by
  have hlt : s.playbackMin < endTimeOf delta s.playbackMin :=
    lt_endTimeOf h0 h90 s.playbackMin
  rw [set_rotation_getObj, hg]
  simp only [Option.map_some']
  rw [rotation_keys_structure hlt]

/-- C4 witness: on a channel holding one key at time `5`, `set_rotation`
with `start_time = 1`, `angle_interval = 0.75` leaves exactly the two
fresh linear keys at times `1` and `479`. -/
theorem set_rotation_keys_exact_witness :
    getObj 0 (set_rotation (3/4) 0
        ⟨[⟨0, ObjKind.group, (0, 0, 0), none, [⟨5, 7, Tangent.auto⟩]⟩], 1, 24, 48, 1⟩)
      = some ⟨0, ObjKind.group, (0, 0, 0), none,
          [⟨1, 0, Tangent.linear⟩, ⟨479, 1437/4, Tangent.linear⟩]⟩ := by
  have h := set_rotation_keys_exact
    ⟨[⟨0, ObjKind.group, (0, 0, 0), none, [⟨5, 7, Tangent.auto⟩]⟩], 1, 24, 48, 1⟩
    0 ⟨0, ObjKind.group, (0, 0, 0), none, [⟨5, 7, Tangent.auto⟩]⟩ (3/4)
    (by norm_num) (by norm_num) rfl
  rw [h]
  norm_num [endTimeOf, cutKey, List.filter]

/-- C5: if the recorded camera or group no longer exists, Apply performs
exactly the Create action; when both still exist, Apply keeps the tool
state and object count, updates the camera's `translateY` and
`translateZ` in place, and regenerates the rotation animation on the
group instead of rebuilding. -/
theorem apply_fallback_or_update (t : Tool) (s : Scene) (c g : ℕ)
    (hc : t.cameraField = some c) (hg : t.groupField = some g) (hcg : c ≠ g) :
    (¬ (objExists c s = true ∧ objExists g s = true) →
        apply_button_on_clicked t s = create_button_on_clicked t s) ∧
      (objExists c s = true → objExists g s = true →
        (apply_button_on_clicked t s).1 = t ∧
          (apply_button_on_clicked t s).2.nextId = s.nextId ∧
          getObj c (apply_button_on_clicked t s).2
            = (getObj c s).map (fun o =>
                { o with translate := (o.translate.1, t.cameraHeight, t.cameraDistance) }) ∧
          (apply_button_on_clicked t s).2
            = set_rotation t.angleInterval g
                (setTranslateZ c t.cameraDistance (setTranslateY c t.cameraHeight s))) := by
  unfold apply_button_on_clicked
  rw [hc, hg]
  constructor
  · intro hne
    cases hex : (objExists c s && objExists g s) with
    | true =>
        exact absurd (Bool.and_eq_true_iff.mp hex) hne
    | false =>
        simp only [hex, Bool.false_eq_true, if_false]
  · intro h1 h2
    simp only [h1, h2, Bool.and_self, if_true]
    refine ⟨trivial, ?_, ?_, trivial⟩
    · rw [set_rotation_nextId]
      rfl
    · rw [set_rotation_getObj_ne hcg]
      unfold setTranslateZ setTranslateY
      rw [getObj_mapObj_translate, getObj_mapObj_translate, Option.map_map]
      cases getObj c s with
      | none => rfl
      | some o => rfl

/-- C5 witness: on a scene holding camera `1` and group `2`, Apply with
both present keeps the tool and updates the camera in place; on the same
scene with the camera removed, Apply equals Create. -/
theorem apply_fallback_or_update_witness :
    ((apply_button_on_clicked ⟨7, 4, 3/4, some 0, some 1, some 2, true⟩
          ⟨[⟨0, ObjKind.sphere, (0, 0, 0), none, []⟩,
            ⟨1, ObjKind.camera, (0, 2, 5), some 2, []⟩,
            ⟨2, ObjKind.group, (0, 0, 0), some 0, []⟩], 1, 24, 48, 3⟩).1
        = ⟨7, 4, 3/4, some 0, some 1, some 2, true⟩ ∧
      (apply_button_on_clicked ⟨7, 4, 3/4, some 0, some 1, some 2, true⟩
          ⟨[⟨0, ObjKind.sphere, (0, 0, 0), none, []⟩,
            ⟨1, ObjKind.camera, (0, 2, 5), some 2, []⟩,
            ⟨2, ObjKind.group, (0, 0, 0), some 0, []⟩], 1, 24, 48, 3⟩).2.nextId = 3 ∧
      getObj 1 (apply_button_on_clicked ⟨7, 4, 3/4, some 0, some 1, some 2, true⟩
          ⟨[⟨0, ObjKind.sphere, (0, 0, 0), none, []⟩,
            ⟨1, ObjKind.camera, (0, 2, 5), some 2, []⟩,
            ⟨2, ObjKind.group, (0, 0, 0), some 0, []⟩], 1, 24, 48, 3⟩).2
        = some ⟨1, ObjKind.camera, (0, 4, 7), some 2, []⟩) ∧
    apply_button_on_clicked ⟨7, 4, 3/4, some 0, some 1, some 2, true⟩
        ⟨[⟨0, ObjKind.sphere, (0, 0, 0), none, []⟩], 1, 24, 48, 3⟩
      = create_button_on_clicked ⟨7, 4, 3/4, some 0, some 1, some 2, true⟩
          ⟨[⟨0, ObjKind.sphere, (0, 0, 0), none, []⟩], 1, 24, 48, 3⟩ := by
  constructor
  · have h := (apply_fallback_or_update ⟨7, 4, 3/4, some 0, some 1, some 2, true⟩
      ⟨[⟨0, ObjKind.sphere, (0, 0, 0), none, []⟩,
        ⟨1, ObjKind.camera, (0, 2, 5), some 2, []⟩,
        ⟨2, ObjKind.group, (0, 0, 0), some 0, []⟩], 1, 24, 48, 3⟩ 1 2
      rfl rfl (by norm_num)).2 rfl rfl
    exact ⟨h.1, h.2.1, by rw [h.2.2.1]; rfl⟩
  · exact (apply_fallback_or_update ⟨7, 4, 3/4, some 0, some 1, some 2, true⟩
      ⟨[⟨0, ObjKind.sphere, (0, 0, 0), none, []⟩], 1, 24, 48, 3⟩ 1 2
      rfl rfl (by norm_num)).1 (by intro h; exact absurd h.1 (by decide))

/-- C9: for a synchronized linked pair whose spin-box range contains the
slider range and whose slider range contains `0`, setting either
control's value leaves the spin box's value equal to the slider's
value. -/
theorem pair_sync (p : Pair) (v : ℚ)
    (hsync : p.spin.val = p.slider.val)
    (h1 : p.spin.lo ≤ p.slider.lo) (h2 : p.slider.hi ≤ p.spin.hi)
    (h3 : p.slider.lo ≤ 0) (h4 : 0 ≤ p.slider.hi) :
    (setSpinValue v p).spin.val = (setSpinValue v p).slider.val ∧
      (setSliderValue v p).spin.val = (setSliderValue v p).slider.val := by
  have hsl : p.slider.lo ≤ p.slider.hi := le_trans h3 h4
  have hsp : p.spin.lo ≤ p.spin.hi := le_trans h1 (le_trans hsl h2)
  constructor
  · have hm := clampVal_mem v hsp
    have hb := @on_value_changed_bounds (clampVal v p.spin.lo p.spin.hi)
      p.spin.lo p.spin.hi ⟨p.slider.lo, p.slider.hi⟩ hm.1 hm.2 h3 h4
    have hsv := clampVal_eq_self hb.1 hb.2
    unfold setSpinValue
    dsimp only
    split_ifs with hif1 hif2
    · exact hsync
    · exact hsv.symm
    · dsimp only
      rw [hsv, clampVal_eq_self hm.1 hm.2]
  · have hm := clampVal_mem v hsl
    have hv1sp : p.spin.lo ≤ clampVal v p.slider.lo p.slider.hi ∧
        clampVal v p.slider.lo p.slider.hi ≤ p.spin.hi :=
      ⟨le_trans h1 hm.1, le_trans hm.2 h2⟩
    have hv2 := clampVal_eq_self hv1sp.1 hv1sp.2
    unfold setSliderValue
    dsimp only
    split_ifs with hif1 hif2
    · exact hsync
    · dsimp only
      rw [hv2] at hif2
      exact hif2.symm
    · dsimp only
      rw [hv2]
      have hb := @on_value_changed_bounds (clampVal v p.slider.lo p.slider.hi)
        p.spin.lo p.spin.hi ⟨p.slider.lo, p.slider.hi⟩ hv1sp.1 hv1sp.2 h3 h4
      exact (clampVal_eq_self hb.1 hb.2).symm

/-- C9 witness: the camera-distance pair at its initial state, set to
`100` through the spin box and to `30` through the slider, stays
synchronized. -/
theorem pair_sync_witness :
    ((setSpinValue 100 ⟨⟨0, 2147483647, 5⟩, ⟨0, 60, 5⟩⟩).spin.val
        = (setSpinValue 100 ⟨⟨0, 2147483647, 5⟩, ⟨0, 60, 5⟩⟩).slider.val ∧
      (setSliderValue 100 ⟨⟨0, 2147483647, 5⟩, ⟨0, 60, 5⟩⟩).spin.val
        = (setSliderValue 100 ⟨⟨0, 2147483647, 5⟩, ⟨0, 60, 5⟩⟩).slider.val) ∧
    ((setSpinValue 30 ⟨⟨-2147483647, 2147483647, 2⟩, ⟨-20, 40, 2⟩⟩).spin.val
        = (setSpinValue 30 ⟨⟨-2147483647, 2147483647, 2⟩, ⟨-20, 40, 2⟩⟩).slider.val ∧
      (setSliderValue 30 ⟨⟨-2147483647, 2147483647, 2⟩, ⟨-20, 40, 2⟩⟩).spin.val
        = (setSliderValue 30 ⟨⟨-2147483647, 2147483647, 2⟩, ⟨-20, 40, 2⟩⟩).slider.val) :=
  ⟨pair_sync ⟨⟨0, 2147483647, 5⟩, ⟨0, 60, 5⟩⟩ 100 rfl
      (by norm_num) (by norm_num) (by norm_num) (by norm_num),
    pair_sync ⟨⟨-2147483647, 2147483647, 2⟩, ⟨-20, 40, 2⟩⟩ 30 rfl
      (by norm_num) (by norm_num) (by norm_num) (by norm_num)⟩

/-- C6: Create builds a sphere at the origin, a camera at
`(0, camera_height, camera_distance)` and a group; parents the camera
under the group and the group under the sphere; produces the two-key
rotation animation on the group; enables Apply and records the three
references. -/
theorem create_rig (t : Tool) (s : Scene) (hWF : SceneWF s)
    (h0 : 0 < t.angleInterval) (h90 : t.angleInterval ≤ 90) :
    (create_button_on_clicked t s).1.applyEnabled = true ∧
      (create_button_on_clicked t s).1.turntableField = some s.nextId ∧
      (create_button_on_clicked t s).1.cameraField = some (s.nextId + 1) ∧
      (create_button_on_clicked t s).1.groupField = some (s.nextId + 2) ∧
      getObj s.nextId (create_button_on_clicked t s).2
        = some ⟨s.nextId, ObjKind.sphere, (0, 0, 0), none, []⟩ ∧
      getObj (s.nextId + 1) (create_button_on_clicked t s).2
        = some ⟨s.nextId + 1, ObjKind.camera,
            (0, t.cameraHeight, t.cameraDistance), some (s.nextId + 2), []⟩ ∧
      getObj (s.nextId + 2) (create_button_on_clicked t s).2
        = some ⟨s.nextId + 2, ObjKind.group, (0, 0, 0), some s.nextId,
            [⟨s.playbackMin, 0, Tangent.linear⟩,
             ⟨endTimeOf t.angleInterval s.playbackMin,
              endTimeOf t.angleInterval s.playbackMin * t.angleInterval,
              Tangent.linear⟩]⟩ := by
  have h := create_state t s hWF (lt_endTimeOf h0 h90 s.playbackMin)
  exact ⟨rfl, rfl, rfl, rfl, h.1, h.2.1, h.2.2⟩

/-- C6 witness: Create on an empty scene with the default settings
`(5, 2, 0.75)` yields the sphere, the camera at `(0, 2, 5)` under group
`2`, and the group under sphere `0` carrying keys at frames `1` and
`479`. -/
theorem create_rig_witness :
    (create_button_on_clicked ⟨5, 2, 3/4, none, none, none, false⟩
        ⟨[], 1, 24, 48, 0⟩).1.applyEnabled = true ∧
      (create_button_on_clicked ⟨5, 2, 3/4, none, none, none, false⟩
          ⟨[], 1, 24, 48, 0⟩).1.turntableField = some 0 ∧
      (create_button_on_clicked ⟨5, 2, 3/4, none, none, none, false⟩
          ⟨[], 1, 24, 48, 0⟩).1.cameraField = some 1 ∧
      (create_button_on_clicked ⟨5, 2, 3/4, none, none, none, false⟩
          ⟨[], 1, 24, 48, 0⟩).1.groupField = some 2 ∧
      getObj 0 (create_button_on_clicked ⟨5, 2, 3/4, none, none, none, false⟩
          ⟨[], 1, 24, 48, 0⟩).2
        = some ⟨0, ObjKind.sphere, (0, 0, 0), none, []⟩ ∧
      getObj 1 (create_button_on_clicked ⟨5, 2, 3/4, none, none, none, false⟩
          ⟨[], 1, 24, 48, 0⟩).2
        = some ⟨1, ObjKind.camera, (0, 2, 5), some 2, []⟩ ∧
      getObj 2 (create_button_on_clicked ⟨5, 2, 3/4, none, none, none, false⟩
          ⟨[], 1, 24, 48, 0⟩).2
        = some ⟨2, ObjKind.group, (0, 0, 0), some 0,
            [⟨1, 0, Tangent.linear⟩, ⟨479, 1437/4, Tangent.linear⟩]⟩ := by
  have h := create_rig ⟨5, 2, 3/4, none, none, none, false⟩ ⟨[], 1, 24, 48, 0⟩
    (by intro o ho; exact absurd ho (List.not_mem_nil o))
    (by norm_num) (by norm_num)
  have he : endTimeOf (3/4 : ℚ) 1 = 479 := by norm_num [endTimeOf]
  have hv : (479 : ℚ) * (3/4) = 1437/4 := by norm_num
  dsimp only at h
  rw [he, hv] at h
  exact h

/-- C7: running Apply right after Create with unchanged settings leaves
the camera object (including its position) and the group object
(including its rotation keyframes) exactly as Create left them. -/
theorem create_then_apply_idempotent (t : Tool) (s : Scene) (hWF : SceneWF s)
    (h0 : 0 < t.angleInterval) (h90 : t.angleInterval ≤ 90) :
    getObj (s.nextId + 1)
        (apply_button_on_clicked (create_button_on_clicked t s).1
          (create_button_on_clicked t s).2).2
      = getObj (s.nextId + 1) (create_button_on_clicked t s).2 ∧
      getObj (s.nextId + 2)
        (apply_button_on_clicked (create_button_on_clicked t s).1
          (create_button_on_clicked t s).2).2
      = getObj (s.nextId + 2) (create_button_on_clicked t s).2 := by
  have hlt := lt_endTimeOf h0 h90 s.playbackMin
  have hs := create_state t s hWF hlt
  have hcam_ex : objExists (s.nextId + 1) (create_button_on_clicked t s).2 = true :=
    (objExists_iff_getObj _ _).mpr (by rw [hs.2.1]; rfl)
  have hgrp_ex : objExists (s.nextId + 2) (create_button_on_clicked t s).2 = true :=
    (objExists_iff_getObj _ _).mpr (by rw [hs.2.2]; rfl)
  have ht1 : (create_button_on_clicked t s).1
      = { t with
          turntableField := some s.nextId,
          cameraField := some (s.nextId + 1),
          groupField := some (s.nextId + 2),
          applyEnabled := true } := rfl
  have happly : (apply_button_on_clicked (create_button_on_clicked t s).1
        (create_button_on_clicked t s).2).2
      = set_rotation t.angleInterval (s.nextId + 2)
          (setTranslateZ (s.nextId + 1) t.cameraDistance
            (setTranslateY (s.nextId + 1) t.cameraHeight
              (create_button_on_clicked t s).2)) := by
    rw [ht1]
    unfold apply_button_on_clicked
    dsimp only
    simp only [hcam_ex, hgrp_ex, Bool.and_self, if_true]
  have hmin : (setTranslateZ (s.nextId + 1) t.cameraDistance
      (setTranslateY (s.nextId + 1) t.cameraHeight
        (create_button_on_clicked t s).2)).playbackMin = s.playbackMin := by
    unfold setTranslateZ setTranslateY
    rw [mapObj_playbackMin, mapObj_playbackMin, create_scene_eq,
      set_rotation_playbackMin, mapObj_playbackMin, mapObj_playbackMin]
  constructor
  · rw [happly, set_rotation_getObj_ne (by omega)]
    unfold setTranslateZ setTranslateY
    rw [getObj_mapObj_translate, getObj_mapObj_translate, hs.2.1]
    rfl
  · rw [happly, set_rotation_getObj, hmin]
    unfold setTranslateZ setTranslateY
    rw [getObj_mapObj_translate_ne (by omega), getObj_mapObj_translate_ne (by omega),
      hs.2.2]
    simp only [Option.map_some']
    rw [rotation_keys_structure hlt]
    have hcut : cutKey s.playbackMin (endTimeOf t.angleInterval s.playbackMin)
        [⟨s.playbackMin, 0, Tangent.linear⟩,
         ⟨endTimeOf t.angleInterval s.playbackMin,
          endTimeOf t.angleInterval s.playbackMin * t.angleInterval,
          Tangent.linear⟩] = [] := by
      simp [cutKey, hlt.le]
    rw [hcut]
    rfl

/-- C7 witness: Create then Apply with the default settings `(5, 2, 0.75)`
on an empty scene leaves the camera and the group objects unchanged. -/
theorem create_then_apply_idempotent_witness :
    getObj 1 (apply_button_on_clicked
          (create_button_on_clicked ⟨5, 2, 3/4, none, none, none, false⟩
            ⟨[], 1, 24, 48, 0⟩).1
          (create_button_on_clicked ⟨5, 2, 3/4, none, none, none, false⟩
            ⟨[], 1, 24, 48, 0⟩).2).2
      = getObj 1 (create_button_on_clicked ⟨5, 2, 3/4, none, none, none, false⟩
          ⟨[], 1, 24, 48, 0⟩).2 ∧
      getObj 2 (apply_button_on_clicked
          (create_button_on_clicked ⟨5, 2, 3/4, none, none, none, false⟩
            ⟨[], 1, 24, 48, 0⟩).1
          (create_button_on_clicked ⟨5, 2, 3/4, none, none, none, false⟩
            ⟨[], 1, 24, 48, 0⟩).2).2
      = getObj 2 (create_button_on_clicked ⟨5, 2, 3/4, none, none, none, false⟩
          ⟨[], 1, 24, 48, 0⟩).2 :=
  create_then_apply_idempotent ⟨5, 2, 3/4, none, none, none, false⟩ ⟨[], 1, 24, 48, 0⟩
    (by intro o ho; exact absurd ho (List.not_mem_nil o))
    (by norm_num) (by norm_num)

end CreateTurntable
